import Mathlib

/-!
# Verification of the bank term-deposit prediction API (`app/main.py`)

A shallow embedding of the single source file of the repository: the two
custom pandas transformers (`BinaryMapper`, `MonthMapper`), the pydantic
request schema `InputFeatures`, the model-artifact loading with its
degraded mode, and the two HTTP handlers `home` (`GET /`) and `predict`
(`POST /predict`).

Machine floats are embedded as rationals; a pandas `NaN` is the dedicated
constructor `Cell.na`; Python code paths that can raise are embedded with
`Option` or an explicit error constructor.
-/

/-- A pandas cell value: a string, an integer, a real number (embedded as a
rational), or the missing-value marker `NaN`. -/
inductive Cell where
  | str (s : String)
  | int (n : Int)
  | rat (q : ℚ)
  | na
deriving DecidableEq, Repr

/-- `true` exactly for the numeric cell kinds (integer or real). -/
def Cell.isNumeric : Cell → Bool
  | Cell.int _ => true
  | Cell.rat _ => true
  | _ => false

/-- A pandas `DataFrame`, column-oriented: an ordered list of named columns,
each holding its cells top to bottom. -/
structure DF where
  cols : List (String × List Cell)
deriving DecidableEq, Repr

/-- The column names of a frame, in order. -/
def DF.colNames (X : DF) : List String := X.cols.map Prod.fst

/-- The number of rows: length of the first column (0 for an empty frame). -/
def DF.nrows (X : DF) : Nat := (X.cols.head?.map (fun c => c.2.length)).getD 0

/-- The cell at column index `i`, row index `j`, if both are in range. -/
def DF.cell (X : DF) (i j : Nat) : Option Cell :=
  X.cols[i]?.bind (fun c => c.2[j]?)

/-- The cells of the column named `name`, if present (first match). -/
def DF.getCol (X : DF) (name : String) : Option (List Cell) :=
  (X.cols.find? (fun c => c.1 == name)).map Prod.snd

/-- `df[name] = v` for a scalar `v`: pandas replaces the column when the name
exists, otherwise appends a new column at the end, broadcasting the scalar
to every row. -/
def DF.setCol (X : DF) (name : String) (v : Cell) : DF :=
  if X.cols.any (fun c => c.1 == name) then
    ⟨X.cols.map (fun c => if c.1 == name then (c.1, c.2.map (fun _ => v)) else c)⟩
  else
    ⟨X.cols ++ [(name, List.replicate X.nrows v)]⟩

/-- `pandas.Series.map` with a dictionary: each value is looked up; a value
absent from the dictionary (including any non-string cell, since the keys
are strings) becomes the missing-value marker `NaN`. It never raises. -/
def mapCell (d : List (String × Int)) : Cell → Cell
  | Cell.str s =>
    match d.lookup s with
    | some n => Cell.int n
    | none => Cell.na
  | _ => Cell.na

/-- `BinaryMapper.__init__` default dictionary: `{'yes': 1, 'no': 0}`. -/
def binaryCategories : List (String × Int) := [("yes", 1), ("no", 0)]

namespace BinaryMapper

/-- `BinaryMapper.transform`: `X.apply(lambda col: col.map(self.categories))`
— maps every cell of every column through the `categories` dictionary,
keeping the column names and their order. -/
def transform (categories : List (String × Int)) (X : DF) : DF :=
  ⟨X.cols.map (fun c => (c.1, c.2.map (mapCell categories)))⟩

end BinaryMapper

namespace MonthMapper

/-- `MonthMapper.__init__`: the fixed month order list. -/
def month_order : List String :=
  ["jan", "feb", "mar", "apr", "may", "jun", "jul", "aug", "sep", "oct", "nov", "dec"]

/-- `self.month_map = {month: i + 1 for i, month in enumerate(self.month_order)}`. -/
def month_map : List (String × Int) :=
  month_order.enum.map (fun p => (p.2, (p.1 : Int) + 1))

/-- `MonthMapper.transform`: `X.iloc[:, 0].map(self.month_map).to_frame()` —
selects the first column only, maps it through the month dictionary, and
returns it as a one-column frame keeping that column's name. `iloc[:, 0]`
raises an `IndexError` on a frame with no columns, hence the `Option`. -/
def transform (X : DF) : Option DF :=
  match X.cols with
  | [] => none
  | c :: _ => some ⟨[(c.1, c.2.map (mapCell month_map))]⟩

end MonthMapper

/-- `InputFeatures`: the pydantic request body. Raw field values prior to
validation; the declared types are `int` (here `Int`), `float` (here `ℚ`)
and strings for the `Literal` enum fields. -/
structure InputFeatures where
  age : Int
  balance : ℚ
  duration : Int
  campaign : Int
  previous : Int
  job : String
  marital : String
  education : String
  default : String
  housing : String
  loan : String
  contact : String
  month : String
  poutcome : String
deriving DecidableEq, Repr

/-- The closed set of the `job` Literal. -/
def jobValues : List String :=
  ["management", "technician", "entrepreneur", "blue-collar", "unknown", "retired",
   "admin.", "services", "self-employed", "unemployed", "housemaid", "student"]

/-- The closed set of the `marital` Literal. -/
def maritalValues : List String := ["married", "single", "divorced"]

/-- The closed set of the `education` Literal. -/
def educationValues : List String := ["tertiary", "secondary", "unknown", "primary"]

/-- The closed set of the `default`, `housing` and `loan` Literals. -/
def yesNoValues : List String := ["no", "yes"]

/-- The closed set of the `contact` Literal. -/
def contactValues : List String := ["unknown", "cellular", "telephone"]

/-- The closed set of the `month` Literal. -/
def monthValues : List String :=
  ["jan", "feb", "mar", "apr", "may", "jun", "jul", "aug", "sep", "oct", "nov", "dec"]

/-- The closed set of the `poutcome` Literal. -/
def poutcomeValues : List String := ["unknown", "other", "failure", "success"]

/-- The pydantic validation of `InputFeatures`: the `Field` bounds on the
numeric fields (`age` has `ge = 18, le = 120`, `duration` has `ge = 0`,
`campaign` has `ge = 1`, `previous` has `ge = 0`, `balance` is
unconstrained) and the case-sensitive exact membership of each `Literal`
enum field. -/
def validateInput (r : InputFeatures) : Bool :=
  decide (18 ≤ r.age) && decide (r.age ≤ 120) &&
  decide (0 ≤ r.duration) && decide (1 ≤ r.campaign) && decide (0 ≤ r.previous) &&
  jobValues.contains r.job && maritalValues.contains r.marital &&
  educationValues.contains r.education && yesNoValues.contains r.default &&
  yesNoValues.contains r.housing && yesNoValues.contains r.loan &&
  contactValues.contains r.contact && monthValues.contains r.month &&
  poutcomeValues.contains r.poutcome

/-- Modelled from the spec: the opaque serialized model artifact
(`rf_portable_pipeline.pkl`) is not in the repository; per the spec its
`predict_proba`-equivalent returns, for the single-row input frame, a
two-element probability vector ordered `[no, yes]`. We embed the artifact
as a function from the input frame to the probability row
`predict_proba(df)[0]`, with no constraint on its length or values: those
constraints appear as hypotheses where the spec assumes them. -/
structure Model where
  predict_proba : DF → List ℚ

/-- The outcome of `joblib.load(MODEL_PATH)` at process start. -/
inductive LoadOutcome where
  | loaded (m : Model)
  | fileNotFound
  | loadError (msg : String)

/-- The module-level `MODEL` initialization: starts as `None`; a successful
`joblib.load` stores the artifact; a `FileNotFoundError` or any other
exception is caught (only printed), leaving `MODEL = None`. The process
never crashes on a load failure. -/
def tryLoadModel : LoadOutcome → Option Model
  | LoadOutcome.loaded m => some m
  | LoadOutcome.fileNotFound => none
  | LoadOutcome.loadError _ => none

/-- The body returned by `GET /`. -/
structure HomeResponse where
  status : String
  model_loaded : Bool
  api_version : String
deriving DecidableEq, Repr

/-- `home` (`GET /`): always returns the fixed status body; `model_loaded`
is `MODEL is not None`. There is no error path. -/
def home (model : Option Model) : HomeResponse :=
  { status := "ok", model_loaded := model.isSome, api_version := "1.0.0" }

/-- `features.model_dump()` then `pd.DataFrame([input_data_dict])`: a
single-row frame whose columns are the fourteen fields in declaration
order, each holding that field's value unchanged. -/
def dataFrameOfRecord (f : InputFeatures) : DF :=
  ⟨[("age", [Cell.int f.age]), ("balance", [Cell.rat f.balance]),
    ("duration", [Cell.int f.duration]), ("campaign", [Cell.int f.campaign]),
    ("previous", [Cell.int f.previous]), ("job", [Cell.str f.job]),
    ("marital", [Cell.str f.marital]), ("education", [Cell.str f.education]),
    ("default", [Cell.str f.default]), ("housing", [Cell.str f.housing]),
    ("loan", [Cell.str f.loan]), ("contact", [Cell.str f.contact]),
    ("month", [Cell.str f.month]), ("poutcome", [Cell.str f.poutcome])]⟩

/-- The row assembled by `predict` for the artifact: the fourteen-field
frame with the two filler columns injected by `input_df['day'] = 1` and
`input_df['pdays'] = -1`. -/
def buildRow (f : InputFeatures) : DF :=
  ((dataFrameOfRecord f).setCol "day" (Cell.int 1)).setCol "pdays" (Cell.int (-1))

/-- The successful body returned by `POST /predict`; `prob_no` and
`prob_yes` are the two entries of `prediction_probability`. -/
structure PredictResponse where
  prob_no : ℚ
  prob_yes : ℚ
  threshold_used : ℚ
  description : String
deriving DecidableEq, Repr

/-- The outcome of a `POST /predict` call: the explicit
`HTTPException(status_code = 500, ...)`, a Python `IndexError` (reading
`probas[0]`/`probas[1]` from a too-short vector), or the JSON body. -/
inductive PredictResult where
  | httpError (status : Nat) (detail : String)
  | indexError
  | success (resp : PredictResponse)
deriving Repr

/-- `true` exactly when the result carries a prediction body. -/
def PredictResult.hasBody : PredictResult → Bool
  | PredictResult.success _ => true
  | _ => false

/-- The `detail` string of the 500 error raised when `MODEL is None`. -/
def modelUnavailableDetail : String := "Modelo não carregado ou erro de inicialização."

/-- The fixed `description` string of every successful prediction body. -/
def predictionDescription : String :=
  "Probabilidade de subscrever (\x27yes\x27) ou não subscrever (\x27no\x27) o depósito."

/-- `predict` (`POST /predict`) on an already-validated body: raises the
500 error when `MODEL is None`; otherwise assembles the input frame,
injects the two filler columns, reads `probas[0]` and `probas[1]` from
the artifact's probability row, and returns the JSON body with the
constant `threshold_used = 0.6239` and the fixed description. -/
def predict (model : Option Model) (features : InputFeatures) : PredictResult :=
  match model with
  | none => PredictResult.httpError 500 modelUnavailableDetail
  | some m =>
    match m.predict_proba (buildRow features) with
    | p0 :: p1 :: _ =>
      PredictResult.success
        { prob_no := p0, prob_yes := p1,
          threshold_used := (6239 : ℚ) / 10000,
          description := predictionDescription }
    | _ => PredictResult.indexError

/-- A request body with every field valid except possibly `age` and
`campaign`, which are the two parameters (the other values are those of the
spec's end-to-end example). -/
def exampleBase (age campaign : Int) : InputFeatures :=
  { age := age, balance := 1500, duration := 200, campaign := campaign, previous := 0,
    job := "technician", marital := "married", education := "secondary",
    default := "no", housing := "yes", loan := "no", contact := "cellular",
    month := "may", poutcome := "unknown" }

/-- An artifact stub returning the probability vector `[1/2, 1/2]` on every
input, used to instantiate theorems at concrete inputs. -/
def constModel : Model := ⟨fun _ => [1/2, 1/2]⟩

/-- The concrete response `constModel` induces. -/
def responseHalf : PredictResponse :=
  { prob_no := 1/2, prob_yes := 1/2, threshold_used := (6239 : ℚ) / 10000,
    description := predictionDescription }

theorem lookup_eq_none_iff (d : List (String × Int)) (s : String) :
    d.lookup s = none ↔ s ∉ d.map Prod.fst := by
  induction d with
  | nil => simp
  | cons p rest ih =>
    obtain ⟨k, v⟩ := p
    by_cases h : s = k
    · subst h
      simp [List.lookup]
    · simp [List.lookup, beq_eq_false_iff_ne.mpr h, ih, h]

theorem mapCell_str_na_iff (d : List (String × Int)) (s : String) :
    mapCell d (Cell.str s) = Cell.na ↔ s ∉ d.map Prod.fst := by
  rw [← lookup_eq_none_iff]
  cases hl : d.lookup s with
  | none => simp [mapCell, hl]
  | some n => simp [mapCell, hl]

/-- C2: for every input table, `BinaryMapper.transform` (with its default
`{'yes': 1, 'no': 0}` dictionary) returns a table with the same column
names, in which every cell equal to `"yes"` becomes `1`, every cell equal
to `"no"` becomes `0`, and any other value becomes the missing-value
marker `NaN` — it is a total function, never an error. -/
theorem binaryMapper_transform_spec (X : DF) (i j : Nat) (c : Cell) :
    (BinaryMapper.transform binaryCategories X).colNames = X.colNames ∧
    (BinaryMapper.transform binaryCategories X).cell i j =
      (X.cell i j).map (mapCell binaryCategories) ∧
    mapCell binaryCategories c =
      (if c = Cell.str "yes" then Cell.int 1
       else if c = Cell.str "no" then Cell.int 0 else Cell.na) := by
  refine ⟨?_, ?_, ?_⟩
  · simp [BinaryMapper.transform, DF.colNames]
  · simp only [BinaryMapper.transform, DF.cell, List.getElem?_map]
    cases X.cols[i]? with
    | none => rfl
    | some col => simp [List.getElem?_map]
  · cases c with
    | str s =>
      by_cases hy : s = "yes"
      · subst hy; rfl
      · by_cases hn : s = "no"
        · subst hn; rfl
        · simp [mapCell, binaryCategories, List.lookup,
                beq_eq_false_iff_ne.mpr hy, beq_eq_false_iff_ne.mpr hn, hy, hn]
    | int n => rfl
    | rat q => rfl
    | na => rfl

/-- C3: on a single-column table, `MonthMapper.transform` returns (without
an error) the single column with `"jan"` mapped to `1` through `"dec"`
mapped to `12` via the fixed ordinal dictionary, and a string not among
the twelve abbreviations mapped to the missing-value marker. -/
theorem monthMapper_transform_single_column (name : String) (cells : List Cell) (s : String) :
    MonthMapper.transform ⟨[(name, cells)]⟩ =
      some ⟨[(name, cells.map (mapCell MonthMapper.month_map))]⟩ ∧
    (mapCell MonthMapper.month_map (Cell.str "jan") = Cell.int 1 ∧
     mapCell MonthMapper.month_map (Cell.str "feb") = Cell.int 2 ∧
     mapCell MonthMapper.month_map (Cell.str "mar") = Cell.int 3 ∧
     mapCell MonthMapper.month_map (Cell.str "apr") = Cell.int 4 ∧
     mapCell MonthMapper.month_map (Cell.str "may") = Cell.int 5 ∧
     mapCell MonthMapper.month_map (Cell.str "jun") = Cell.int 6 ∧
     mapCell MonthMapper.month_map (Cell.str "jul") = Cell.int 7 ∧
     mapCell MonthMapper.month_map (Cell.str "aug") = Cell.int 8 ∧
     mapCell MonthMapper.month_map (Cell.str "sep") = Cell.int 9 ∧
     mapCell MonthMapper.month_map (Cell.str "oct") = Cell.int 10 ∧
     mapCell MonthMapper.month_map (Cell.str "nov") = Cell.int 11 ∧
     mapCell MonthMapper.month_map (Cell.str "dec") = Cell.int 12) ∧
    (mapCell MonthMapper.month_map (Cell.str s) = Cell.na ↔
      s ∉ MonthMapper.month_order) := by
  refine ⟨rfl, by decide, ?_⟩
  have hkeys : MonthMapper.month_map.map Prod.fst = MonthMapper.month_order := by decide
  rw [mapCell_str_na_iff, hkeys]

/-- C10: on a table with more than one column, `MonthMapper.transform`
keeps only the mapped first column: the output equals the one-column
frame built from the first column, whatever the remaining columns hold. -/
theorem monthMapper_drops_extra_columns (c : String × List Cell)
    (rest : List (String × List Cell)) :
    MonthMapper.transform ⟨c :: rest⟩ =
      some ⟨[(c.1, c.2.map (mapCell MonthMapper.month_map))]⟩ := rfl

/-- C4: the request validation accepts the numeric fields exactly when
`18 ≤ age ≤ 120`, `duration ≥ 0`, `campaign ≥ 1` and `previous ≥ 0`, and
each enum field exactly when it is (case-sensitively) one of that field's
closed-set values; in particular `age = 18` and `age = 120` are accepted,
`age = 17` and `age = 121` are rejected, `campaign = 0` is rejected and
`campaign = 1` is accepted. -/
theorem validateInput_spec :
    (∀ r : InputFeatures, validateInput r = true ↔
      ((18 ≤ r.age ∧ r.age ≤ 120) ∧ 0 ≤ r.duration ∧ 1 ≤ r.campaign ∧ 0 ≤ r.previous ∧
       r.job ∈ jobValues ∧ r.marital ∈ maritalValues ∧ r.education ∈ educationValues ∧
       r.default ∈ yesNoValues ∧ r.housing ∈ yesNoValues ∧ r.loan ∈ yesNoValues ∧
       r.contact ∈ contactValues ∧ r.month ∈ monthValues ∧ r.poutcome ∈ poutcomeValues)) ∧
    validateInput (exampleBase 18 1) = true ∧
    validateInput (exampleBase 120 1) = true ∧
    validateInput (exampleBase 17 1) = false ∧
    validateInput (exampleBase 121 1) = false ∧
    validateInput (exampleBase 35 0) = false ∧
    validateInput (exampleBase 35 1) = true := by
  refine ⟨?_, by decide, by decide, by decide, by decide, by decide, by decide⟩
  intro r
  simp [validateInput, Bool.and_eq_true, decide_eq_true_eq, List.contains,
        List.elem_iff, and_assoc]

/-- C5: a failed artifact load (file missing or any other deserialization
error) leaves the process alive with `MODEL = None`; from then on every
`/predict` call fails with the same 500 `ModelUnavailable` error, returns
no prediction body, and does not reach inference. -/
theorem predict_degraded_mode (f g : InputFeatures) (msg : String) :
    predict (tryLoadModel LoadOutcome.fileNotFound) f =
      PredictResult.httpError 500 modelUnavailableDetail ∧
    predict (tryLoadModel (LoadOutcome.loadError msg)) f =
      PredictResult.httpError 500 modelUnavailableDetail ∧
    predict (tryLoadModel LoadOutcome.fileNotFound) f =
      predict (tryLoadModel LoadOutcome.fileNotFound) g ∧
    (predict (tryLoadModel LoadOutcome.fileNotFound) f).hasBody = false ∧
    (predict (tryLoadModel (LoadOutcome.loadError msg)) f).hasBody = false :=
  ⟨rfl, rfl, rfl, rfl, rfl⟩

/-- C6: `GET /` always returns the body
`{"status": "ok", "model_loaded": b, "api_version": "1.0.0"}` with no
error path, and `model_loaded` is `true` exactly when the artifact was
successfully loaded at process start. -/
theorem home_spec (o : LoadOutcome) :
    (home (tryLoadModel o)).status = "ok" ∧
    (home (tryLoadModel o)).api_version = "1.0.0" ∧
    ((home (tryLoadModel o)).model_loaded = true ↔ ∃ m, o = LoadOutcome.loaded m) := by
  refine ⟨rfl, rfl, ?_⟩
  cases o with
  | loaded m => simp [home, tryLoadModel]
  | fileNotFound => simp [home, tryLoadModel]
  | loadError msg => simp [home, tryLoadModel]

/-- C7: the row assembled by `/predict` carries the two injected constant
columns `day = 1` and `pdays = -1` — names the caller never supplies —
appended after the fourteen caller-supplied columns, each of which is
passed through unchanged; no other column is added, removed or
modified. -/
theorem predict_row_assembly (f : InputFeatures) :
    (buildRow f).colNames =
      ["age", "balance", "duration", "campaign", "previous", "job", "marital",
       "education", "default", "housing", "loan", "contact", "month", "poutcome",
       "day", "pdays"] ∧
    (buildRow f).getCol "day" = some [Cell.int 1] ∧
    (buildRow f).getCol "pdays" = some [Cell.int (-1)] ∧
    (dataFrameOfRecord f).colNames.contains "day" = false ∧
    (dataFrameOfRecord f).colNames.contains "pdays" = false ∧
    (buildRow f).getCol "age" = some [Cell.int f.age] ∧
    (buildRow f).getCol "balance" = some [Cell.rat f.balance] ∧
    (buildRow f).getCol "duration" = some [Cell.int f.duration] ∧
    (buildRow f).getCol "campaign" = some [Cell.int f.campaign] ∧
    (buildRow f).getCol "previous" = some [Cell.int f.previous] ∧
    (buildRow f).getCol "job" = some [Cell.str f.job] ∧
    (buildRow f).getCol "marital" = some [Cell.str f.marital] ∧
    (buildRow f).getCol "education" = some [Cell.str f.education] ∧
    (buildRow f).getCol "default" = some [Cell.str f.default] ∧
    (buildRow f).getCol "housing" = some [Cell.str f.housing] ∧
    (buildRow f).getCol "loan" = some [Cell.str f.loan] ∧
    (buildRow f).getCol "contact" = some [Cell.str f.contact] ∧
    (buildRow f).getCol "month" = some [Cell.str f.month] ∧
    (buildRow f).getCol "poutcome" = some [Cell.str f.poutcome] := by
  refine ⟨rfl, rfl, rfl, rfl, rfl, rfl, rfl, rfl, rfl, rfl, rfl, rfl,
         rfl, rfl, rfl, rfl, rfl, rfl, rfl⟩

/-- C8 counterexample: at the spec's own example input, the frame handed
to the artifact's `predict_proba` has 16 columns (not 13) and is not
fully numeric — the nine categorical fields are still strings at that
interface. -/
theorem predict_row_not_thirteen_columns :
    ((buildRow (exampleBase 35 2)).cols.length == 13) = false ∧
    (buildRow (exampleBase 35 2)).cols.all (fun c => c.2.all Cell.isNumeric) = false := by
  decide

/-- C8 (amended): the frame handed to the artifact consists of the
fourteen caller-supplied columns plus the two constant filler columns —
16 columns in total — of which exactly 7 (the five numeric fields and the
two fillers) are numeric and exactly 9 (the categorical fields) are
non-numeric strings; the numeric encoding happens inside the artifact's
own pipeline. -/
theorem predict_row_sixteen_columns (f : InputFeatures) :
    (buildRow f).cols.length = 16 ∧
    (buildRow f).cols.countP (fun c => c.2.all Cell.isNumeric) = 7 ∧
    (buildRow f).cols.countP (fun c => c.2.all (fun v => !v.isNumeric)) = 9 :=
  ⟨rfl, rfl, rfl⟩

theorem predict_some (m : Model) (f : InputFeatures) :
    predict (some m) f =
      match m.predict_proba (buildRow f) with
      | p0 :: p1 :: _ =>
        PredictResult.success
          { prob_no := p0, prob_yes := p1, threshold_used := (6239 : ℚ) / 10000,
            description := predictionDescription }
      | _ => PredictResult.indexError := rfl

/-- C1: when the artifact is loaded and its `predict_proba`-equivalent
yields the two-element probability vector `[p0, p1]` ordered `[no, yes]`
summing to `1` within `1e-6`, `/predict` succeeds with
`prediction_probability` entries taken from that vector in that order,
so they also sum to `1` within `1e-6`. -/
theorem predict_probability_passthrough (m : Model) (f : InputFeatures) (p0 p1 : ℚ)
    (h : m.predict_proba (buildRow f) = [p0, p1])
    (hsum : |p0 + p1 - 1| ≤ 1 / 1000000) :
    ∃ resp : PredictResponse,
      predict (some m) f = PredictResult.success resp ∧
      resp.prob_no = p0 ∧ resp.prob_yes = p1 ∧
      |resp.prob_no + resp.prob_yes - 1| ≤ 1 / 1000000 := by
  have hpred : predict (some m) f = PredictResult.success
      { prob_no := p0, prob_yes := p1, threshold_used := (6239 : ℚ) / 10000,
        description := predictionDescription } := by
    rw [predict_some, h]
  exact ⟨_, hpred, rfl, rfl, hsum⟩

/-- Witness for C1: the pass-through at a concrete artifact stub and the
spec's example record. -/
theorem predict_probability_passthrough_witness :
    ∃ resp : PredictResponse,
      predict (some constModel) (exampleBase 35 2) = PredictResult.success resp ∧
      resp.prob_no = 1/2 ∧ resp.prob_yes = 1/2 ∧
      |resp.prob_no + resp.prob_yes - 1| ≤ 1 / 1000000 :=
  predict_probability_passthrough constModel (exampleBase 35 2) (1/2) (1/2) rfl
    (by norm_num)

/-- C9: every successful `/predict` response carries the constant
`threshold_used = 0.6239` and the same fixed description string,
whatever the input record and the computed probabilities. -/
theorem predict_constant_fields (m : Model) (f : InputFeatures) (r : PredictResponse)
    (h : predict (some m) f = PredictResult.success r) :
    r.threshold_used = (6239 : ℚ) / 10000 ∧ r.description = predictionDescription := by
  rw [predict_some] at h
  cases hp : m.predict_proba (buildRow f) with
  | nil =>
    rw [hp] at h
    exact PredictResult.noConfusion h
  | cons p0 tl =>
    cases tl with
    | nil =>
      rw [hp] at h
      exact PredictResult.noConfusion h
    | cons p1 rest =>
      rw [hp] at h
      injection h with h2
      subst h2
      exact ⟨rfl, rfl⟩

/-- Witness for C9: the constant fields at a concrete artifact stub and
record. -/
theorem predict_constant_fields_witness :
    responseHalf.threshold_used = (6239 : ℚ) / 10000 ∧
    responseHalf.description = predictionDescription :=
  predict_constant_fields constModel (exampleBase 40 3) responseHalf rfl
